import Mathlib

/-!
Shallow embedding of `detect_leakage.py`: search-string generation,
per-field leak checking, per-entry HAR processing and per-site aggregation.
Python dictionaries are modelled as association lists in insertion order;
Python values that may be strings, numbers or `None` are modelled by `PyVal`;
runtime exceptions (TypeError, AttributeError, NameError) are modelled by
`Except String`.
-/

/-- A Python value as it can appear in the user-data JSON: a string, a
non-string (e.g. a number), or `None`. -/
inductive PyVal where
  | vstr (s : String)
  | vint (n : Int)
  | vnone
deriving DecidableEq, Repr

/-- Python `isinstance(val, str)`. -/
def isStr : PyVal → Bool
  | .vstr _ => true
  | _ => false

/-- Python `str()` conversion as used by f-string interpolation. -/
def pyToStr : PyVal → String
  | .vstr s => s
  | .vint n => toString n
  | .vnone => "None"

/-- Python `d.get(k, default)` on a dict modelled as an association list. -/
def dictGetD {α : Type} (d : List (String × α)) (k : String) (default : α) : α :=
  match d.find? (fun p => p.1 == k) with
  | some p => p.2
  | none => default

/-- Python `d.get(k)` (no default: returns `None` when the key is absent). -/
def dictGet (d : List (String × PyVal)) (k : String) : PyVal :=
  dictGetD d k .vnone

/-- Python slice `v[n:]` (by code points); raises TypeError on a non-string
value. -/
def pySliceDrop : PyVal → Nat → Except String PyVal
  | .vstr s, n => .ok (.vstr (s.data.drop n).asString)
  | _, _ => .error "TypeError: NoneType is not subscriptable"

/-- Python slice `v[:n]` (by code points); raises TypeError on a non-string
value. -/
def pySliceTake : PyVal → Nat → Except String PyVal
  | .vstr s, n => .ok (.vstr (s.data.take n).asString)
  | _, _ => .error "TypeError: NoneType is not subscriptable"

/-- Python `v.replace(" ", "")` — every space character is removed; raises
AttributeError on a non-string value. -/
def pyReplaceSpaces : PyVal → Except String PyVal
  | .vstr s => .ok (.vstr (s.data.filter (fun c => c != ' ')).asString)
  | _ => .error "AttributeError: value has no attribute replace"

/-- Python `s.strip()`: leading and trailing whitespace removed. -/
def pyStrip (s : String) : String :=
  (((s.data.dropWhile Char.isWhitespace).reverse.dropWhile Char.isWhitespace).reverse).asString

/-- Python `s.lower()` as used for case-insensitive header-name comparison. -/
def pyLower (s : String) : String :=
  (s.data.map Char.toLower).asString

/-- Python `s.startswith(pre)`. -/
def pyStartsWith (s pre : String) : Bool :=
  pre.data.isPrefixOf s.data

/-- `general_exclusions` of `get_search_strings`. -/
def general_exclusions : List String :=
  ["date_of_birth", "credit_card_expiry_month", "credit_card_expiry_year",
   "credit_card_cvv", "email_prefix", "email_suffix"]

/-- `profile_exclusions` of `get_search_strings`. -/
def profile_exclusions : List String :=
  ["payment_options", "house_number"]

/-- `get_search_strings(general, profile, site)`: builds the ordered list of
search strings, with the same mutations and the same evaluation order as the
source, so that the first raising operation determines the error. -/
def get_search_strings (general profile : List (String × PyVal)) (site : String) :
    Except String (List PyVal) :=
  let email_prefix := dictGetD general "email_prefix" (.vstr "")
  let email_suffix := dictGetD general "email_suffix" (.vstr "")
  let email_basic := PyVal.vstr (pyToStr email_prefix ++ "@" ++ pyToStr email_suffix)
  let email_variant :=
    PyVal.vstr (pyToStr email_prefix ++ "+" ++ site ++ "@" ++ pyToStr email_suffix)
  let first_name := dictGetD general "first_name" (.vstr "")
  let last_name := dictGetD general "last_name" (.vstr "")
  let full_name := PyVal.vstr (pyStrip (pyToStr first_name ++ " " ++ pyToStr last_name))
  let phone_number := dictGet profile "local_format"
  let international_phone_number := dictGet profile "international_format"
  match pySliceDrop international_phone_number 1 with
  | .error msg => .error msg
  | .ok international_phone_number_stripped =>
    let country_code := dictGet profile "country_code"
    let zip_code := dictGetD profile "zip_code" (.vstr "")
    match (if country_code = PyVal.vstr "+31" then
        match pySliceTake zip_code 4 with
        | Except.error msg => Except.error msg
        | Except.ok zipHead =>
          match pySliceDrop zip_code 4 with
          | Except.error msg => Except.error msg
          | Except.ok zipTail =>
            Except.ok [PyVal.vstr (pyToStr zipHead ++ " " ++ pyToStr zipTail)]
      else Except.ok ([] : List PyVal)) with
    | .error msg => .error msg
    | .ok zipPart =>
      let street := dictGetD profile "street" (.vstr "")
      let house_number := dictGetD profile "house_number" (.vstr "")
      let full_address := PyVal.vstr (pyToStr street ++ " " ++ pyToStr house_number)
      let credit_card_expiry_month := dictGetD general "credit_card_expiry_month" (.vstr "")
      let credit_card_expiry_year := dictGetD general "credit_card_expiry_year" (.vstr "")
      let expiry_date := PyVal.vstr
        (pyToStr credit_card_expiry_month ++ "/" ++ pyToStr credit_card_expiry_year)
      let credit_card_number := dictGetD general "credit_card_number" (.vstr "")
      match pyReplaceSpaces credit_card_number with
      | .error msg => .error msg
      | .ok cc_no_spaces =>
        let generalLoop :=
          (general.filter (fun kv => !(general_exclusions.contains kv.1) && isStr kv.2)).map
            (fun kv => kv.2)
        let profileLoop :=
          (profile.filter (fun kv => !(profile_exclusions.contains kv.1) && isStr kv.2)).map
            (fun kv => kv.2)
        .ok ([email_basic, email_variant, full_name, phone_number,
            international_phone_number, international_phone_number_stripped] ++
          zipPart ++ [full_address, expiry_date, cc_no_spaces] ++ generalLoop ++ profileLoop)

/-- One leak in the set format of `record_leak`. -/
structure LeakRecord where
  leaked_value : String
  encoding_or_hash : String
  leak_method : String
  timestamp : String
deriving DecidableEq, Repr

/-- `record_leak(encoding_or_hash, method, leaked_value, timestamp)`. -/
def record_leak (encoding_or_hash method leaked_value timestamp : String) : LeakRecord :=
  { leaked_value := leaked_value, encoding_or_hash := encoding_or_hash,
    leak_method := method, timestamp := timestamp }

/-- The body of the `for result in results` loop of `check_field`: how one
match tuple (modelled as a list of strings, last element the leaked value) is
turned into leak records.  Tuples of length 4, 3 and 2 are handled by the
three `if`/`elif` branches; any other length falls through producing nothing. -/
def tuple_to_leaks (field timestamp : String) (result : List String) : List LeakRecord :=
  if result.length = 4 then
    [record_leak ("-".intercalate result.dropLast) field (result.getLastD "") timestamp]
  else if result.length = 3 then
    [record_leak ("-".intercalate result.dropLast) field (result.getLastD "") timestamp]
  else if result.length = 2 then
    [record_leak (result.headD "") field (result.getLastD "") timestamp]
  else []

/-- `check_field(field, content, method, timestamp)`.  `content` is `none` for
a missing (Python `None`) value; Python truthiness skips both `None` and the
empty string, and only then is the detector operation `method` called. -/
def check_field (field : String) (content : Option String)
    (method : String → List (List String)) (timestamp : String) : List LeakRecord :=
  match content with
  | none => []
  | some c =>
    if c = "" then []
    else ((method c).map (tuple_to_leaks field timestamp)).flatten

/-- One HTTP header of a HAR entry. -/
structure Header where
  name : String
  value : String
deriving DecidableEq, Repr

/-- `extract_header_value(headers, name)`: first case-insensitive name match
wins, `None` when no header matches. -/
def extract_header_value (headers : List Header) (name : String) : Option String :=
  match headers.find? (fun h => pyLower h.name == pyLower name) with
  | some h => some h.value
  | none => none

/-- One attached cookie; `name`/`value` are `none` when the key is absent
(Python `cookie.get` returning `None`). -/
structure Cookie where
  name : Option String
  value : Option String
deriving DecidableEq, Repr

/-- Python `str()` of an optional string inside an f-string (`None` prints as
the text `None`). -/
def pyOptStr : Option String → String
  | some s => s
  | none => "None"

/-- `cookie_str = f"{cookie.get('name')}={cookie.get('value')}"`. -/
def cookie_to_str (c : Cookie) : String :=
  pyOptStr c.name ++ "=" ++ pyOptStr c.value

/-- One HAR entry, reduced to the fields the code reads.  `request_url` is
`none` when the key is absent; `some ""` models an empty URL string. -/
structure HarEntry where
  startedDateTime : Option String
  request_url : Option String
  request_headers : List Header
  postData_text : Option String
  response_headers : List Header
  cookies : List Cookie
deriving DecidableEq, Repr

/-- The external layered detector: its five field-specific check operations,
each returning a list of match tuples. -/
structure LeakDetector where
  check_url : String → List (List String)
  check_referrer_str : String → List (List String)
  check_post_data : String → List (List String)
  check_location_header : String → List (List String)
  check_cookie_str : String → List (List String)

/-- The `all_leaks` list collected for one entry: the five named fields in
source order, then one independent `check_field` call per attached cookie. -/
def entry_all_leaks (ld : LeakDetector) (now : String) (e : HarEntry) : List LeakRecord :=
  let timestamp := e.startedDateTime.getD now
  check_field "url" e.request_url ld.check_url timestamp ++
  check_field "referrer" (extract_header_value e.request_headers "Referer")
    ld.check_referrer_str timestamp ++
  check_field "postData" e.postData_text ld.check_post_data timestamp ++
  check_field "location" (extract_header_value e.response_headers "Location")
    ld.check_location_header timestamp ++
  check_field "setCookie" (extract_header_value e.response_headers "Set-Cookie")
    ld.check_cookie_str timestamp ++
  (e.cookies.map (fun c =>
    check_field "Cookies" (some (cookie_to_str c)) ld.check_cookie_str timestamp)).flatten

/-- The `entry_url_domain` variable after the `if entry_url:` block: updated
only when the URL is truthy (present and non-empty); `blob:` URLs map to the
sentinel, others to the eTLD+1 produced by the domain-resolution collaborator
`extractDomain`. -/
def entry_domain (extractDomain : String → String) (cur : Option String) :
    Option String → Option String
  | some u =>
    if u = "" then cur
    else if pyStartsWith u "blob:" then some "blob-url"
    else some (extractDomain u)
  | none => cur

/-- `if entry_url_domain not in leaks: leaks[entry_url_domain] = []` followed
by `leaks[entry_url_domain].extend(all_leaks)`, on a dict in insertion order. -/
def dictExtend (d : List (String × List LeakRecord)) (k : String) (v : List LeakRecord) :
    List (String × List LeakRecord) :=
  if d.any (fun p => p.1 == k) then
    d.map (fun p => if p.1 == k then (p.1, p.2 ++ v) else p)
  else d ++ [(k, v)]

/-- One iteration of the entry loop of `process_har_and_check_for_leaks`:
state is the `leaks` dict plus the (possibly unbound) `entry_url_domain`
variable; reading it unbound raises a NameError. -/
def har_step (extractDomain : String → String) (ld : LeakDetector) (now : String)
    (st : List (String × List LeakRecord) × Option String) (e : HarEntry) :
    Except String (List (String × List LeakRecord) × Option String) :=
  let dom := entry_domain extractDomain st.2 e.request_url
  let all_leaks := entry_all_leaks ld now e
  if all_leaks = [] then .ok (st.1, dom)
  else
    match dom with
    | none => .error "NameError: entry_url_domain is not defined"
    | some d => .ok (dictExtend st.1 d all_leaks, some d)

/-- The entry loop of `process_har_and_check_for_leaks`. -/
def har_loop (extractDomain : String → String) (ld : LeakDetector) (now : String)
    (leaks : List (String × List LeakRecord)) (dom : Option String) :
    List HarEntry → Except String (List (String × List LeakRecord))
  | [] => .ok leaks
  | e :: rest =>
    match har_step extractDomain ld now (leaks, dom) e with
    | .error msg => .error msg
    | .ok st => har_loop extractDomain ld now st.1 st.2 rest

/-- `process_har_and_check_for_leaks(har_path, site, leak_detector)` with the
parsed entry list in place of the file: the `leaks` dict starts empty and
`entry_url_domain` starts unbound. -/
def process_har_and_check_for_leaks (extractDomain : String → String) (now : String)
    (entries : List HarEntry) (ld : LeakDetector) :
    Except String (List (String × List LeakRecord)) :=
  har_loop extractDomain ld now [] none entries

/-- One element of the `leaks` list of a site result. -/
structure DomainLeaks where
  domain : String
  data_leaked : List LeakRecord
deriving DecidableEq, Repr

/-- `{website, leaks: [...]}` as written to the output file. -/
structure SiteResult where
  website : String
  leaks : List DomainLeaks
deriving DecidableEq, Repr

/-- `format_site_results(site, leaks)`. -/
def format_site_results (site : String) (leaks : List (String × List LeakRecord)) :
    SiteResult :=
  { website := site,
    leaks := leaks.map (fun p => { domain := p.1, data_leaked := p.2 }) }

/-- One site directory under the base folder: its name, whether it is a
directory holding a `traffic.har` file, and the parsed entries of that file. -/
structure SiteCapture where
  name : String
  valid : Bool
  entries : List HarEntry

/-- The site loop of `process_all_hars_and_check_for_leaks`, producing the
`final_results` list.  `init_detector` models `initialize_leak_detector`
(the external detector constructor applied to the search strings). -/
def process_sites (extractDomain : String → String) (now : String)
    (init_detector : List PyVal → LeakDetector)
    (site_country_map : List (String × String))
    (general : List (String × PyVal))
    (profiles : List (String × List (String × PyVal))) :
    List SiteCapture → Except String (List SiteResult)
  | [] => .ok []
  | s :: rest =>
    if s.valid then
      match get_search_strings general
          (dictGetD profiles (dictGetD site_country_map s.name "dutch") []) s.name with
      | .error msg => .error msg
      | .ok search_strings =>
        match process_har_and_check_for_leaks extractDomain now s.entries
            (init_detector search_strings) with
        | .error msg => .error msg
        | .ok site_leaks =>
          match process_sites extractDomain now init_detector site_country_map general
              profiles rest with
          | .error msg => .error msg
          | .ok restResults =>
            if site_leaks = [] then .ok restResults
            else .ok (format_site_results s.name site_leaks :: restResults)
    else
      process_sites extractDomain now init_detector site_country_map general profiles rest

/-- `process_all_hars_and_check_for_leaks`: returns `some final_results` when
the output file is written (non-empty `final_results`) and `none` when no
file is written. -/
def process_all_hars_and_check_for_leaks (extractDomain : String → String) (now : String)
    (init_detector : List PyVal → LeakDetector)
    (sites : List SiteCapture)
    (site_country_map : List (String × String))
    (general : List (String × PyVal))
    (profiles : List (String × List (String × PyVal))) :
    Except String (Option (List SiteResult)) :=
  match process_sites extractDomain now init_detector site_country_map general
      profiles sites with
  | .error msg => .error msg
  | .ok final_results =>
    if final_results = [] then .ok none else .ok (some final_results)

/-- View of an `Except` value as a sum, to decide equalities of results. -/
def exceptToSum {ε α : Type} : Except ε α → ε ⊕ α
  | .error e => .inl e
  | .ok a => .inr a

instance {ε α : Type} [DecidableEq ε] [DecidableEq α] : DecidableEq (Except ε α) :=
  fun a b =>
    decidable_of_iff (exceptToSum a = exceptToSum b)
      (by cases a <;> cases b <;> simp [exceptToSum])

/-- A concrete domain-resolution collaborator for evaluating the model. -/
def exDom : String → String := fun _ => "tracker.example"

/-- A concrete detector that only matches on URLs. -/
def ldUrlOnly : LeakDetector :=
  ⟨fun _ => [["base64", "leak"]], fun _ => [], fun _ => [], fun _ => [], fun _ => []⟩

/-- A concrete detector that only matches on cookie strings. -/
def ldCookieOnly : LeakDetector :=
  ⟨fun _ => [], fun _ => [], fun _ => [], fun _ => [], fun _ => [["plain", "leak"]]⟩

/-- A concrete entry whose request URL is a blob URL. -/
def blobEntry : HarEntry :=
  ⟨some "t0", some "blob:resource", [], none, [], []⟩

/-- A concrete entry with no request URL but a matching cookie. -/
def urllessEntry : HarEntry :=
  ⟨some "t0", none, [], none, [], [⟨some "sid", some "42"⟩]⟩

/-- A concrete entry carrying two cookies and nothing else. -/
def twoCookieEntry : HarEntry :=
  ⟨some "t0", none, [], none, [], [⟨some "a", some "1"⟩, ⟨some "b", some "2"⟩]⟩

lemma intercalate_two (a b : String) : "-".intercalate [a, b] = a ++ "-" ++ b := rfl

lemma intercalate_three (a b c : String) :
    "-".intercalate [a, b, c] = a ++ "-" ++ b ++ "-" ++ c := rfl

/-- C3: a 4-element match tuple yields the chain of its first three elements
hyphen-joined with the fourth element as leaked value; a 3-element tuple the
first two hyphen-joined with the third as value; a 2-element tuple its first
element as chain and second as value; and `check_field` on non-empty content
is exactly the concatenation of these per-tuple normalizations. -/
theorem check_field_tuple_normalization (field ts cont : String)
    (method : String → List (List String)) (hc : cont ≠ "") :
    check_field field (some cont) method ts
      = ((method cont).map (tuple_to_leaks field ts)).flatten ∧
    (∀ a b c d : String, tuple_to_leaks field ts [a, b, c, d]
      = [record_leak (a ++ "-" ++ b ++ "-" ++ c) field d ts]) ∧
    (∀ a b c : String, tuple_to_leaks field ts [a, b, c]
      = [record_leak (a ++ "-" ++ b) field c ts]) ∧
    (∀ a b : String, tuple_to_leaks field ts [a, b]
      = [record_leak a field b ts]) := by
  refine ⟨by simp [check_field, hc], ?_, ?_, ?_⟩
  · intro a b c d
    simp [tuple_to_leaks, intercalate_three]
  · intro a b c
    simp [tuple_to_leaks, intercalate_two]
  · intro a b
    simp [tuple_to_leaks]

/-- Witness for C3 at a concrete 4-, 3- and 2-element tuple. -/
theorem check_field_tuple_normalization_witness :
    check_field "url" (some "payload") (fun _ => [["b64", "md5", "sha1", "v"]]) "t"
      = [record_leak ("b64" ++ "-" ++ "md5" ++ "-" ++ "sha1") "url" "v" "t"] := by
  have h := check_field_tuple_normalization "url" "t" "payload"
    (fun _ => [["b64", "md5", "sha1", "v"]]) (by decide)
  rw [h.1]
  simp [h.2.1]

/-- C8: a missing (`None`) or empty field value produces no leak records and
causes no detector call — the result is `[]` for every possible detector
operation, so the operation is never consulted. -/
theorem check_field_skips_missing_and_empty (field ts : String)
    (method : String → List (List String)) :
    check_field field none method ts = [] ∧
    check_field field (some "") method ts = [] := by
  exact ⟨rfl, rfl⟩

/-- C9: match tuples whose length is not 2, 3 or 4 are silently discarded:
each contributes no leak record, and a detector returning only such tuples
yields an empty result with no error. -/
theorem check_field_discards_other_lengths (field ts cont : String)
    (method : String → List (List String)) (hc : cont ≠ "")
    (hlen : ∀ r ∈ method cont, r.length ≠ 2 ∧ r.length ≠ 3 ∧ r.length ≠ 4) :
    (∀ r ∈ method cont, tuple_to_leaks field ts r = []) ∧
    check_field field (some cont) method ts = [] := by
  have htup : ∀ r ∈ method cont, tuple_to_leaks field ts r = [] := by
    intro r hr
    obtain ⟨h2, h3, h4⟩ := hlen r hr
    simp [tuple_to_leaks, h2, h3, h4]
  refine ⟨htup, ?_⟩
  simp only [check_field]
  rw [if_neg hc, List.flatten_eq_nil_iff]
  intro l hl
  obtain ⟨r, hr, rfl⟩ := List.mem_map.mp hl
  exact htup r hr

/-- Witness for C9: a detector producing a 1-element and a 0-element tuple. -/
theorem check_field_discards_other_lengths_witness :
    check_field "url" (some "payload") (fun _ => [["only"], []]) "t" = [] := by
  exact (check_field_discards_other_lengths "url" "t" "payload"
    (fun _ => [["only"], []]) (by decide) (by decide)).2

lemma leak_method_of_mem_tuple_to_leaks {field ts : String} {r : List String}
    {rec : LeakRecord} (h : rec ∈ tuple_to_leaks field ts r) : rec.leak_method = field := by
  unfold tuple_to_leaks at h
  split at h
  · simp at h; subst h; rfl
  · split at h
    · simp at h; subst h; rfl
    · split at h
      · simp at h; subst h; rfl
      · simp at h

lemma leak_method_of_mem_check_field {field ts : String} {content : Option String}
    {method : String → List (List String)} {rec : LeakRecord}
    (h : rec ∈ check_field field content method ts) : rec.leak_method = field := by
  cases content with
  | none => simp [check_field] at h
  | some c =>
    simp only [check_field] at h
    by_cases hc : c = ""
    · rw [if_pos hc] at h
      simp at h
    · rw [if_neg hc] at h
      obtain ⟨l, hl, hrec⟩ := List.mem_flatten.mp h
      obtain ⟨r, hr, rfl⟩ := List.mem_map.mp hl
      exact leak_method_of_mem_tuple_to_leaks hrec

/-- C10: every leak record carries as `leak_method` exactly the field name of
the `check_field` call that produced it; over one entry the method is always
one of url, referrer, postData, location, setCookie, Cookies. -/
theorem leak_method_equals_call_field (field ts now : String) (content : Option String)
    (method : String → List (List String)) (ld : LeakDetector) (e : HarEntry) :
    (∀ rec ∈ check_field field content method ts, rec.leak_method = field) ∧
    (∀ rec ∈ entry_all_leaks ld now e,
      rec.leak_method ∈
        (["url", "referrer", "postData", "location", "setCookie", "Cookies"] : List String)) := by
  constructor
  · intro rec h
    exact leak_method_of_mem_check_field h
  · intro rec h
    unfold entry_all_leaks at h
    simp only [List.mem_append] at h
    rcases h with ((((h | h) | h) | h) | h) | h
    · simp [leak_method_of_mem_check_field h]
    · simp [leak_method_of_mem_check_field h]
    · simp [leak_method_of_mem_check_field h]
    · simp [leak_method_of_mem_check_field h]
    · simp [leak_method_of_mem_check_field h]
    · obtain ⟨l, hl, hrec⟩ := List.mem_flatten.mp h
      obtain ⟨c, hc, rfl⟩ := List.mem_map.mp hl
      simp [leak_method_of_mem_check_field hrec]

/-- Witness for C10 at a concrete call and a concrete entry. -/
theorem leak_method_equals_call_field_witness :
    (record_leak "b64" "postData" "v" "t").leak_method = "postData" ∧
    (record_leak "plain" "Cookies" "leak" "t0").leak_method ∈
      (["url", "referrer", "postData", "location", "setCookie", "Cookies"] : List String) := by
  constructor
  · exact (leak_method_equals_call_field "postData" "t" "now" (some "x")
      (fun _ => [["b64", "v"]]) ldCookieOnly urllessEntry).1
      (record_leak "b64" "postData" "v" "t") (by decide)
  · exact (leak_method_equals_call_field "postData" "t" "now" (some "x")
      (fun _ => [["b64", "v"]]) ldCookieOnly urllessEntry).2
      (record_leak "plain" "Cookies" "leak" "t0") (by decide)

/-- C5: an entry whose request URL starts with `blob:` has its leaks
aggregated under the sentinel key `blob-url`; any other entry with a
non-empty URL has them aggregated under the eTLD+1 produced by the
domain-resolution collaborator for that URL. -/
theorem blob_and_domain_aggregation (extractDomain : String → String) (ld : LeakDetector)
    (now u : String) (st : List (String × List LeakRecord) × Option String) (e : HarEntry)
    (hu : e.request_url = some u) (hne : u ≠ "") (hl : entry_all_leaks ld now e ≠ []) :
    har_step extractDomain ld now st e =
      .ok (dictExtend st.1 (if pyStartsWith u "blob:" then "blob-url" else extractDomain u)
            (entry_all_leaks ld now e),
          some (if pyStartsWith u "blob:" then "blob-url" else extractDomain u)) := by
  by_cases hb : pyStartsWith u "blob:" <;>
    simp [har_step, entry_domain, hu, hne, hl, hb]

/-- Witness for C5 at a concrete blob-URL entry with a concrete match. -/
theorem blob_and_domain_aggregation_witness :
    har_step exDom ldUrlOnly "now" ([], none) blobEntry =
      .ok (dictExtend []
            (if pyStartsWith "blob:resource" "blob:" then "blob-url" else exDom "blob:resource")
            (entry_all_leaks ldUrlOnly "now" blobEntry),
          some (if pyStartsWith "blob:resource" "blob:" then "blob-url"
            else exDom "blob:resource")) := by
  exact blob_and_domain_aggregation exDom ldUrlOnly "now" "blob:resource" ([], none)
    blobEntry rfl (by decide) (by decide)

/-- C6: an entry without a truthy request URL never assigns the domain
variable: if no preceding entry of the capture had a URL, processing the
capture fails with a NameError; otherwise such an entry's leaks are extended
under the domain of the most recent preceding entry that had a URL. -/
theorem urlless_entry_attribution (extractDomain : String → String) (ld : LeakDetector)
    (now : String) (e : HarEntry) (rest : List HarEntry)
    (leaks : List (String × List LeakRecord)) (d : String)
    (hurl : e.request_url = none ∨ e.request_url = some "")
    (hl : entry_all_leaks ld now e ≠ []) :
    process_har_and_check_for_leaks extractDomain now (e :: rest) ld
      = .error "NameError: entry_url_domain is not defined" ∧
    har_step extractDomain ld now (leaks, some d) e
      = .ok (dictExtend leaks d (entry_all_leaks ld now e), some d) := by
  have hdom : ∀ cur : Option String, entry_domain extractDomain cur e.request_url = cur := by
    intro cur
    rcases hurl with h | h <;> rw [h] <;> simp [entry_domain]
  have hstep : har_step extractDomain ld now ([], none) e
      = .error "NameError: entry_url_domain is not defined" := by
    unfold har_step
    rw [hdom]
    simp [hl]
  constructor
  · unfold process_har_and_check_for_leaks har_loop
    rw [hstep]
  · unfold har_step
    rw [hdom]
    simp [hl]

/-- Witness for C6 at a concrete URL-less entry with a matching cookie. -/
theorem urlless_entry_attribution_witness :
    process_har_and_check_for_leaks exDom "now" [urllessEntry] ldCookieOnly
      = .error "NameError: entry_url_domain is not defined" ∧
    har_step exDom ldCookieOnly "now" ([("shop.example", [])], some "shop.example")
      urllessEntry
      = .ok (dictExtend [("shop.example", [])] "shop.example"
          (entry_all_leaks ldCookieOnly "now" urllessEntry), some "shop.example") := by
  exact urlless_entry_attribution exDom ldCookieOnly "now" urllessEntry []
    [("shop.example", [])] "shop.example" (Or.inl rfl) (by decide)

/-- C7: each attached cookie is checked by its own independent detector call
on the single string name=value (via the cookie-string operation): for an
entry whose five named fields are all absent, the collected leaks are exactly
the concatenation of one `check_field "Cookies"` call per cookie, each on
that cookie's own string, never on a concatenation of cookies. -/
theorem cookies_checked_independently (ld : LeakDetector) (now : String) (e : HarEntry)
    (hu : e.request_url = none) (hreq : e.request_headers = [])
    (hpost : e.postData_text = none) (hresp : e.response_headers = []) :
    entry_all_leaks ld now e =
      (e.cookies.map (fun c =>
        check_field "Cookies" (some (pyOptStr c.name ++ "=" ++ pyOptStr c.value))
          ld.check_cookie_str (e.startedDateTime.getD now))).flatten ∧
    (∀ c1 c2 : Cookie, e.cookies = [c1, c2] →
      entry_all_leaks ld now e =
        check_field "Cookies" (some (cookie_to_str c1)) ld.check_cookie_str
          (e.startedDateTime.getD now) ++
        check_field "Cookies" (some (cookie_to_str c2)) ld.check_cookie_str
          (e.startedDateTime.getD now)) := by
  have h1 : entry_all_leaks ld now e =
      (e.cookies.map (fun c =>
        check_field "Cookies" (some (cookie_to_str c)) ld.check_cookie_str
          (e.startedDateTime.getD now))).flatten := by
    unfold entry_all_leaks
    rw [hu, hreq, hpost, hresp]
    simp [check_field, extract_header_value]
  constructor
  · rw [h1]
    rfl
  · intro c1 c2 hc
    rw [h1, hc]
    simp

/-- Witness for C7 at a concrete entry carrying exactly two cookies. -/
theorem cookies_checked_independently_witness :
    entry_all_leaks ldCookieOnly "now" twoCookieEntry =
      check_field "Cookies" (some (cookie_to_str ⟨some "a", some "1"⟩))
        ldCookieOnly.check_cookie_str (twoCookieEntry.startedDateTime.getD "now") ++
      check_field "Cookies" (some (cookie_to_str ⟨some "b", some "2"⟩))
        ldCookieOnly.check_cookie_str (twoCookieEntry.startedDateTime.getD "now") := by
  exact (cookies_checked_independently ldCookieOnly "now" twoCookieEntry
    rfl rfl rfl rfl).2 ⟨some "a", some "1"⟩ ⟨some "b", some "2"⟩ rfl

lemma process_sites_all_leaks_nonempty (extractDomain : String → String) (now : String)
    (init_detector : List PyVal → LeakDetector) (scm : List (String × String))
    (general : List (String × PyVal)) (profiles : List (String × List (String × PyVal))) :
    ∀ (sites : List SiteCapture) (results : List SiteResult),
      process_sites extractDomain now init_detector scm general profiles sites
        = .ok results →
      ∀ r ∈ results, r.leaks ≠ [] := by
  intro sites
  induction sites with
  | nil =>
    intro results h
    simp only [process_sites] at h
    injection h with h
    subst h
    simp
  | cons s rest ih =>
    intro results h
    unfold process_sites at h
    by_cases hv : s.valid
    · rw [if_pos hv] at h
      split at h
      · exact absurd h (by simp)
      · split at h
        · exact absurd h (by simp)
        · rename_i site_leaks hsl
          split at h
          · exact absurd h (by simp)
          · rename_i restResults hrest
            split at h
            · injection h with h
              subst h
              exact ih restResults hrest
            · rename_i hne
              injection h with h
              subst h
              intro r hr
              rcases List.mem_cons.mp hr with rfl | hr
              · simp [format_site_results]
                exact hne
              · exact ih restResults hrest r hr
    · rw [if_neg hv] at h
      exact ih results h

/-- C4: whenever the output is written (`some results`), at least one site
produced leaks and every site result in it has a non-empty domain-to-leaks
mapping; and when no site produced leaks the output file is not written. -/
theorem output_only_for_leaking_sites (extractDomain : String → String) (now : String)
    (init_detector : List PyVal → LeakDetector) (sites : List SiteCapture)
    (scm : List (String × String)) (general : List (String × PyVal))
    (profiles : List (String × List (String × PyVal))) (results : List SiteResult) :
    (process_all_hars_and_check_for_leaks extractDomain now init_detector sites scm
        general profiles = .ok (some results) →
      results ≠ [] ∧ ∀ r ∈ results, r.leaks ≠ []) ∧
    (process_sites extractDomain now init_detector scm general profiles sites = .ok [] →
      process_all_hars_and_check_for_leaks extractDomain now init_detector sites scm
        general profiles = .ok none) := by
  constructor
  · intro h
    unfold process_all_hars_and_check_for_leaks at h
    split at h
    · exact absurd h (by simp)
    · rename_i final_results hfr
      split at h
      · exact absurd h (by simp)
      · rename_i hne
        injection h with h
        injection h with h
        subst h
        exact ⟨hne, process_sites_all_leaks_nonempty extractDomain now init_detector
          scm general profiles sites final_results hfr⟩
  · intro h
    unfold process_all_hars_and_check_for_leaks
    rw [h]
    rfl

/-- Witness for C4 at a concrete run with one leaking site. -/
theorem output_only_for_leaking_sites_witness :
    (([⟨"shop.example", [⟨"blob-url", [record_leak "base64" "url" "leak" "t0"]⟩]⟩] :
        List SiteResult) ≠ [] ∧
      ∀ r ∈ ([⟨"shop.example", [⟨"blob-url", [record_leak "base64" "url" "leak" "t0"]⟩]⟩] :
        List SiteResult), r.leaks ≠ []) := by
  exact (output_only_for_leaking_sites exDom "now" (fun _ => ldUrlOnly)
    [⟨"shop.example", true, [blobEntry]⟩] [] []
    [("dutch", [("international_format", PyVal.vstr "+31612345678")])]
    [⟨"shop.example", [⟨"blob-url", [record_leak "base64" "url" "leak" "t0"]⟩]⟩]).1 (by decide)

/-- Counterexample for C1: with the empty profile record that an unknown
country yields, `get_search_strings` raises a TypeError (slicing the `None`
international phone number) instead of completing with a search-string
collection. -/
theorem empty_profile_raises_counterexample :
    get_search_strings [] [] "example.com"
      = .error "TypeError: NoneType is not subscriptable" := rfl

/-- C1 (amended): for every site whose country is absent from the profile
table, search-string generation is given the empty profile record and then
raises a TypeError when slicing the missing international phone number, so
the site loop propagates that error instead of continuing. -/
theorem empty_profile_generation_raises (general : List (String × PyVal)) (site : String)
    (extractDomain : String → String) (now : String)
    (init_detector : List PyVal → LeakDetector) (scm : List (String × String))
    (profiles : List (String × List (String × PyVal)))
    (s : SiteCapture) (rest : List SiteCapture)
    (hv : s.valid = true)
    (hc : profiles.find? (fun p => p.1 == dictGetD scm s.name "dutch") = none) :
    get_search_strings general [] site
      = .error "TypeError: NoneType is not subscriptable" ∧
    process_sites extractDomain now init_detector scm general profiles (s :: rest)
      = .error "TypeError: NoneType is not subscriptable" := by
  have h1 : ∀ (g : List (String × PyVal)) (site2 : String),
      get_search_strings g [] site2
        = .error "TypeError: NoneType is not subscriptable" := fun g site2 => rfl
  refine ⟨h1 general site, ?_⟩
  have hprof : dictGetD profiles (dictGetD scm s.name "dutch")
      ([] : List (String × PyVal)) = [] := by
    generalize hk : dictGetD scm s.name "dutch" = k at hc ⊢
    unfold dictGetD
    rw [hc]
  unfold process_sites
  rw [if_pos hv, hprof, h1]

/-- Witness for C1 (amended) at a concrete site with an empty profile table. -/
theorem empty_profile_generation_raises_witness :
    get_search_strings [] [] "x.org"
      = .error "TypeError: NoneType is not subscriptable" ∧
    process_sites exDom "now" (fun _ => ldUrlOnly) [] [] [] [⟨"x.org", true, []⟩]
      = .error "TypeError: NoneType is not subscriptable" := by
  exact empty_profile_generation_raises [] "x.org" exDom "now" (fun _ => ldUrlOnly)
    [] [] ⟨"x.org", true, []⟩ [] rfl rfl

/-- Counterexample for C2: fields consumed by the special mutation rules are
NOT excluded from the general loop — with first name Ann and last name Lee
the output contains the individual values Ann and Lee (beyond the combined
full name Ann Lee), and the profile loop re-appends the raw international
phone number as well. -/
theorem special_rule_fields_reappear :
    get_search_strings
        [("first_name", PyVal.vstr "Ann"), ("last_name", PyVal.vstr "Lee")]
        [("international_format", PyVal.vstr "+31612345678")] "shop.example"
      = .ok [PyVal.vstr "@", PyVal.vstr "+shop.example@", PyVal.vstr "Ann Lee",
          PyVal.vnone, PyVal.vstr "+31612345678", PyVal.vstr "31612345678",
          PyVal.vstr " ", PyVal.vstr "/", PyVal.vstr "",
          PyVal.vstr "Ann", PyVal.vstr "Lee", PyVal.vstr "+31612345678"] := by
  decide

/-- C2 (amended): the general loop appends every string-valued field of the
general record whose key is not one of the six listed exclusions
(date_of_birth, credit_card_expiry_month, credit_card_expiry_year,
credit_card_cvv, email_prefix, email_suffix) exactly as its value — the
fields consumed by the special rules (first name, last name, credit-card
number) are not excluded and so appear again individually. -/
theorem general_loop_appends_nonexcluded_fields
    (general profile : List (String × PyVal)) (site : String)
    (l : List PyVal) (key v : String)
    (h : get_search_strings general profile site = .ok l)
    (hmem : (key, PyVal.vstr v) ∈ general)
    (hexcl : key ∉ general_exclusions) :
    PyVal.vstr v ∈ l := by
  unfold get_search_strings at h
  dsimp only at h
  split at h
  · exact absurd h (by simp)
  · split at h
    · exact absurd h (by simp)
    · split at h
      · exact absurd h (by simp)
      · injection h with h
        subst h
        apply List.mem_append_left
        apply List.mem_append_right
        rw [List.mem_map]
        refine ⟨(key, PyVal.vstr v), List.mem_filter.mpr ⟨hmem, ?_⟩, rfl⟩
        simp [isStr]
        exact hexcl

/-- Witness for C2 (amended): the last name reappears individually. -/
theorem general_loop_appends_nonexcluded_fields_witness :
    PyVal.vstr "Lee" ∈
      [PyVal.vstr "@", PyVal.vstr "+shop.example@", PyVal.vstr "Ann Lee",
        PyVal.vnone, PyVal.vstr "+31612345678", PyVal.vstr "31612345678",
        PyVal.vstr " ", PyVal.vstr "/", PyVal.vstr "",
        PyVal.vstr "Ann", PyVal.vstr "Lee", PyVal.vstr "+31612345678"] := by
  exact general_loop_appends_nonexcluded_fields
    [("first_name", PyVal.vstr "Ann"), ("last_name", PyVal.vstr "Lee")]
    [("international_format", PyVal.vstr "+31612345678")] "shop.example"
    _ "last_name" "Lee" (by decide) (by decide) (by decide)
